import Mathlib

/-!
Verification development for the `sfexpresshk` Home Assistant integration.

The Python sources are shallowly embedded:
* `utils.py` (token signer): UTF-8 encoding, MD5, base64 decoding and the
  `generate_syttoken` pipeline are translated into executable Lean functions
  over `String` / `List Nat` (bytes are `Nat` values `< 256` produced with
  explicit `% 256`, 32-bit words are `Nat` values reduced `% 2^32`).
* `sensor.py` (coordinator, cache, sensors): HTTP calls are replaced by
  explicit oracles of type `FetchResult`; a refresh cycle becomes a pure
  state-passing function over the coordinator state (previous snapshot and
  pickup-code cache).
* `config_flow.py` (member verification): the response handling becomes a
  pure function from (status, parsed fields) to success-or-error.
-/

/-! ## Byte-level helpers: UTF-8 encoding (Python `str.encode("utf-8")`) -/

/-- Encoding of one Unicode scalar value as UTF-8 bytes. -/
def utf8EncodeChar (c : Char) : List Nat :=
  let n := c.toNat
  if n < 128 then [n]
  else if n < 2048 then [192 + n / 64, 128 + n % 64]
  else if n < 65536 then [224 + n / 4096, 128 + n / 64 % 64, 128 + n % 64]
  else [240 + n / 262144, 128 + n / 4096 % 64, 128 + n / 64 % 64, 128 + n % 64]

/-- Encoding of a string as a list of UTF-8 bytes (Python `s.encode("utf-8")`). -/
def utf8Encode (s : String) : List Nat :=
  s.data.flatMap utf8EncodeChar

/-- Decoding of a byte list back to characters (Python `bytes.decode("utf-8")`,
restricted to well-formed input; malformed tails are dropped). -/
def utf8DecodeList : List Nat → List Char
  | [] => []
  | b1 :: t1 =>
    if b1 < 128 then Char.ofNat b1 :: utf8DecodeList t1
    else if b1 < 224 then
      match t1 with
      | b2 :: t2 => Char.ofNat ((b1 % 32) * 64 + b2 % 64) :: utf8DecodeList t2
      | [] => []
    else if b1 < 240 then
      match t1 with
      | b2 :: b3 :: t3 =>
        Char.ofNat ((b1 % 16) * 4096 + (b2 % 64) * 64 + b3 % 64) :: utf8DecodeList t3
      | _ => []
    else
      match t1 with
      | b2 :: b3 :: b4 :: t4 =>
        Char.ofNat ((b1 % 8) * 262144 + (b2 % 64) * 4096 + (b3 % 64) * 64 + b4 % 64) ::
          utf8DecodeList t4
      | _ => []

/-! ## MD5 (the `hashlib.md5(...).hexdigest()` dependency of `utils.py`) -/

/-- The 64 MD5 round constants `floor(abs(sin(i+1)) * 2^32)` (RFC 1321). -/
def MD5_K : List Nat := [
  3614090360, 3905402710, 606105819, 3250441966, 4118548399, 1200080426, 2821735955, 4249261313,
  1770035416, 2336552879, 4294925233, 2304563134, 1804603682, 4254626195, 2792965006, 1236535329,
  4129170786, 3225465664, 643717713, 3921069994, 3593408605, 38016083, 3634488961, 3889429448,
  568446438, 3275163606, 4107603335, 1163531501, 2850285829, 4243563512, 1735328473, 2368359562,
  4294588738, 2272392833, 1839030562, 4259657740, 2763975236, 1272893353, 4139469664, 3200236656,
  681279174, 3936430074, 3572445317, 76029189, 3654602809, 3873151461, 530742520, 3299628645,
  4096336452, 1126891415, 2878612391, 4237533241, 1700485571, 2399980690, 4293915773, 2240044497,
  1873313359, 4264355552, 2734768916, 1309151649, 4149444226, 3174756917, 718787259, 3951481745]

/-- The 64 MD5 per-round left-rotation amounts (RFC 1321). -/
def MD5_S : List Nat := [
  7, 12, 17, 22, 7, 12, 17, 22, 7, 12, 17, 22, 7, 12, 17, 22,
  5, 9, 14, 20, 5, 9, 14, 20, 5, 9, 14, 20, 5, 9, 14, 20,
  4, 11, 16, 23, 4, 11, 16, 23, 4, 11, 16, 23, 4, 11, 16, 23,
  6, 10, 15, 21, 6, 10, 15, 21, 6, 10, 15, 21, 6, 10, 15, 21]

/-- Left rotation of a 32-bit word represented as `Nat` (input assumed `< 2^32`). -/
def rotl32 (x n : Nat) : Nat :=
  ((x <<< n) % 4294967296) ||| (x >>> (32 - n))

/-- One of the 64 MD5 rounds, acting on the running state `(a, b, c, d)`;
`M g` is the `g`-th little-endian 32-bit word of the current block. -/
def md5Round (M : Nat → Nat) (st : Nat × Nat × Nat × Nat) (i : Nat) :
    Nat × Nat × Nat × Nat :=
  let (a, b, c, d) := st
  let f :=
    if i < 16 then (b &&& c) ||| ((4294967295 - b) &&& d)
    else if i < 32 then (d &&& b) ||| ((4294967295 - d) &&& c)
    else if i < 48 then (b ^^^ c) ^^^ d
    else c ^^^ (b ||| (4294967295 - d))
  let g :=
    if i < 16 then i
    else if i < 32 then (5 * i + 1) % 16
    else if i < 48 then (3 * i + 5) % 16
    else (7 * i) % 16
  let tmp := (f + a + MD5_K.getD i 0 + M g) % 4294967296
  (d, (b + rotl32 tmp (MD5_S.getD i 0)) % 4294967296, b, c)

/-- Process one 64-byte block: run the 64 rounds and add the result into the
chaining state (all words mod `2^32`). -/
def md5ProcessBlock (st : Nat × Nat × Nat × Nat) (block : List Nat) :
    Nat × Nat × Nat × Nat :=
  let M : Nat → Nat := fun g =>
    block.getD (4 * g) 0 + block.getD (4 * g + 1) 0 * 256 +
      block.getD (4 * g + 2) 0 * 65536 + block.getD (4 * g + 3) 0 * 16777216
  let r := (List.range 64).foldl (md5Round M) st
  ((st.1 + r.1) % 4294967296, (st.2.1 + r.2.1) % 4294967296,
   (st.2.2.1 + r.2.2.1) % 4294967296, (st.2.2.2 + r.2.2.2) % 4294967296)

/-- MD5 padding: append `0x80`, zero bytes up to 56 mod 64, then the bit length
as 8 little-endian bytes. -/
def md5Pad (msg : List Nat) : List Nat :=
  let bitLen := msg.length * 8
  let zeros := (119 - msg.length % 64) % 64
  msg ++ [128] ++ List.replicate zeros 0 ++
    (List.range 8).map (fun k => bitLen / 256 ^ k % 256)

/-- Split a byte list into 64-byte blocks. -/
def toBlocks : List Nat → List (List Nat)
  | [] => []
  | b :: t => ((b :: t).take 64) :: toBlocks ((b :: t).drop 64)
  termination_by l => l.length
  decreasing_by simp_arith [List.length_drop]

/-- Serialize one 32-bit word as 4 little-endian bytes. -/
def wordBytes (x : Nat) : List Nat :=
  [x % 256, x / 256 % 256, x / 65536 % 256, x / 16777216 % 256]

/-- Serialize the final MD5 state as the 16-byte digest. -/
def digestBytes (st : Nat × Nat × Nat × Nat) : List Nat :=
  wordBytes st.1 ++ wordBytes st.2.1 ++ wordBytes st.2.2.1 ++ wordBytes st.2.2.2

/-- MD5 digest (16 bytes) of a byte list. -/
def md5Bytes (msg : List Nat) : List Nat :=
  digestBytes ((toBlocks (md5Pad msg)).foldl md5ProcessBlock
    (1732584193, 4023233417, 2562383102, 271733878))

/-- Lower-case hex digit for a value `< 16`. -/
def hexChar (n : Nat) : Char :=
  "0123456789abcdef".data.getD n '0'

/-- Two lower-case hex digits for one byte. -/
def byteHex (b : Nat) : List Char :=
  [hexChar (b / 16 % 16), hexChar (b % 16)]

/-- Embedding of `utils.md5_hex`: lower-case hex MD5 of the UTF-8 encoding of a string
(`hashlib.md5(string.encode("utf-8")).hexdigest()`). -/
def md5_hex (string : String) : String :=
  String.mk ((md5Bytes (utf8Encode string)).flatMap byteHex)

/-! ## Base64 decoding and the constant secrets (`utils.py`) -/

/-- Value of one base64 alphabet character. -/
def b64Val (c : Char) : Nat :=
  if 'A' ≤ c ∧ c ≤ 'Z' then c.toNat - 65
  else if 'a' ≤ c ∧ c ≤ 'z' then c.toNat - 97 + 26
  else if '0' ≤ c ∧ c ≤ '9' then c.toNat - 48 + 52
  else if c = '+' then 62
  else if c = '/' then 63
  else 0

/-- Decode a list of 6-bit base64 values into bytes. -/
def b64Bytes : List Nat → List Nat
  | v0 :: v1 :: v2 :: v3 :: rest =>
    (v0 * 4 + v1 / 16) :: (v1 % 16 * 16 + v2 / 4) :: (v2 % 4 * 64 + v3) :: b64Bytes rest
  | [v0, v1, v2] => [v0 * 4 + v1 / 16, v1 % 16 * 16 + v2 / 4]
  | [v0, v1] => [v0 * 4 + v1 / 16]
  | _ => []

/-- Embedding of `utils.decode_secret`: base64-decode a string and read the bytes back as
UTF-8 (`base64.b64decode(encoded).decode('utf-8')`). -/
def decode_secret (encoded : String) : String :=
  String.mk (utf8DecodeList (b64Bytes ((encoded.data.filter (fun c => c ≠ '=')).map b64Val)))

/-- Constant `utils.BODY_SECRET`. -/
def BODY_SECRET : String := "TndwQDlCMlZPUE1mUFFpNEI5Tn4mUEpGUVlxNkNTT3c="

/-- Constant `utils.FIRST_SECRET`. -/
def FIRST_SECRET : String := "ZXYyV01CfnE0YSZheVNEdkVORDU3SThCK2duVkReQG8="

/-- Constant `utils.SECOND_SECRET`. -/
def SECOND_SECRET : String := "NmhuOFRUZWtPcEVLOTJhJSt1eWdHQWxoaSRiYSRZNjI="

/-- Embedding of `utils.generate_syttoken`, translated line by line from `utils.py`. -/
def generate_syttoken (body_json device_id client_version time_interval
    region_code language_code js_bundle : String) : String :=
  let body_secret := decode_secret BODY_SECRET
  let body_hash := md5_hex (body_json ++ "&" ++ body_secret)
  let first_secret := decode_secret FIRST_SECRET
  let raw_str1 :=
    device_id ++ time_interval ++ client_version ++ first_secret ++
      region_code ++ language_code ++ body_hash ++ js_bundle
  let md5_1 := md5_hex (raw_str1 ++ "&" ++ first_secret)
  let second_secret := decode_secret SECOND_SECRET
  md5_hex (md5_1 ++ "&" ++ second_secret)

/-- Preimage of the first MD5 of `generate_syttoken`: the string
`body_json + "&" + body_secret` that `utils.py` hashes into `body_hash`. -/
def sytBodyPreimage (body_json : String) : String :=
  body_json ++ "&" ++ decode_secret BODY_SECRET

/-- Preimage of the second MD5 of `generate_syttoken`: the string
`raw_str1 + "&" + first_secret` that `utils.py` hashes into `md5_1`. -/
def sytRawPreimage (body_json device_id client_version time_interval
    region_code language_code js_bundle : String) : String :=
  device_id ++ time_interval ++ client_version ++ decode_secret FIRST_SECRET ++
    region_code ++ language_code ++ md5_hex (sytBodyPreimage body_json) ++
    js_bundle ++ "&" ++ decode_secret FIRST_SECRET

/-- Preimage of the third MD5 of `generate_syttoken`: the string
`md5_1 + "&" + second_secret` whose hash is the returned token. -/
def sytOuterPreimage (body_json device_id client_version time_interval
    region_code language_code js_bundle : String) : String :=
  md5_hex (sytRawPreimage body_json device_id client_version time_interval
    region_code language_code js_bundle) ++ "&" ++ decode_secret SECOND_SECRET

/-! ## Data model for `sensor.py`

HTTP calls are replaced by oracles: a `FetchResult α` is `.fail` when the call
failed (non-200 status, `success` flag false in the body, or any exception) and
`.ok v` when it succeeded with parsed payload `v`. -/

/-- Outcome of one HTTP call, as observed by the coordinator code. -/
inductive FetchResult (α : Type) where
  | fail
  | ok (val : α)
deriving DecidableEq

/-- One entry of a waybill's `barNewList` (a route event). -/
structure RouteEvent where
  scanDate : String
  scanTime : String
  opCode : String
deriving DecidableEq

/-- One waybill as parsed from the list-waybill response (`data["obj"]["dataList"]`). -/
structure WaybillIn where
  waybillno : String
  waybillStatus : String
  updateDateTime : String
  expectedDeliveryTime : String
  waybillStatusMessage : String
  originateContacts : String
deriving DecidableEq

/-- A waybill after the coordinator's enrichment: the fresh list fields plus the
optional `routes` and `pickupCode` keys added by `_async_update_data`. -/
structure Waybill extends WaybillIn where
  routes : Option (List RouteEvent)
  pickupCode : Option String
deriving DecidableEq

/-- The snapshot a successful refresh returns (`data["obj"]`, projected to its
`dataList`). -/
abbrev Snapshot : Type := List Waybill

/-- The pickup-code cache `self._pickup_code_cache` (a dict waybill number → code). -/
abbrev Cache : Type := List (String × String)

/-- Remove a key from the cache (Python `del cache[k]`). -/
def eraseKey (k : String) (c : Cache) : Cache :=
  c.filter (fun p => !(p.1 == k))

/-- Add or replace a key in the cache (Python `cache[k] = v`). -/
def insertEntry (k : String) (v : String) (c : Cache) : Cache :=
  (k, v) :: eraseKey k c

/-- Python truthiness of an optional string (absent and `""` are falsy). -/
def pyTruthy : Option String → Bool
  | none => false
  | some s => !(s == "")

/-- Embedding of `SFExpressCoordinator._fetch_pickup_code`: return the cached code when
present; otherwise consult the HTTP oracle.  A failed call returns `none`
(the `except` branch).  A fetched code is returned as-is and stored in the
cache only when truthy. -/
def fetchPickupCode (cache : Cache) (waybill_no : String)
    (resp : FetchResult (Option String)) : Option String × Cache :=
  match cache.lookup waybill_no with
  | some code => (some code, cache)
  | none =>
    match resp with
    | .fail => (none, cache)
    | .ok none => (none, cache)
    | .ok (some pickup_code) =>
      if pickup_code == "" then (some pickup_code, cache)
      else (some pickup_code, insertEntry waybill_no pickup_code cache)

/-- Lexicographic strict comparison of two character lists by code point,
Python's `str < str`. -/
def strLtB : List Char → List Char → Bool
  | _, [] => false
  | [], _ :: _ => true
  | a :: as, b :: bs =>
    if a.toNat < b.toNat then true
    else if b.toNat < a.toNat then false
    else strLtB as bs

/-- Python's comparison of the key tuples `(x["scanDate"], x["scanTime"])`:
strict lexicographic order on the pair. -/
def keyLtB (a b : RouteEvent) : Bool :=
  strLtB a.scanDate.data b.scanDate.data ||
    (a.scanDate == b.scanDate && strLtB a.scanTime.data b.scanTime.data)

/-- Embedding of `sorted(route_list, key=lambda x: (x["scanDate"], x["scanTime"]), reverse=True)`:
the stable descending sort by `(scanDate, scanTime)` (an element may precede
another exactly when its key is not strictly smaller). -/
def sortRoutes (route_list : List RouteEvent) : List RouteEvent :=
  route_list.insertionSort (fun a b => keyLtB a b = false)

/-- One element of the route-query response `data["obj"]`. -/
structure RouteQueryItem where
  waybillNo : String
  barNewList : List RouteEvent
deriving DecidableEq

/-- The per-waybill value stored in the `routes` dict built by `_fetch_routes`. -/
structure RouteInfo where
  routes : List RouteEvent
  pickupCode : Option String
deriving DecidableEq

/-- The route map built by `_fetch_routes`, keyed by waybill number. -/
abbrev RouteMap : Type := List (String × RouteInfo)

/-- Add or replace a key in the route map (`routes[waybill_no] = ...`). -/
def insertRoute (k : String) (v : RouteInfo) (m : RouteMap) : RouteMap :=
  (k, v) :: m.filter (fun p => !(p.1 == k))

/-- The loop body of `_fetch_routes` for one response item: sort its routes,
and when the latest event has `opCode == "125"` resolve a pickup code through
the cache-or-fetch path, attaching it only when truthy. -/
def processItem (pickupResp : String → FetchResult (Option String))
    (acc : RouteMap × Cache) (item : RouteQueryItem) : RouteMap × Cache :=
  let sorted_routes := sortRoutes item.barNewList
  match sorted_routes with
  | [] => (insertRoute item.waybillNo ⟨sorted_routes, none⟩ acc.1, acc.2)
  | latest_route :: _ =>
    if latest_route.opCode == "125" then
      let r := fetchPickupCode acc.2 item.waybillNo (pickupResp item.waybillNo)
      if pyTruthy r.1 then
        (insertRoute item.waybillNo ⟨sorted_routes, r.1⟩ acc.1, r.2)
      else
        (insertRoute item.waybillNo ⟨sorted_routes, none⟩ acc.1, r.2)
    else (insertRoute item.waybillNo ⟨sorted_routes, none⟩ acc.1, acc.2)

/-- Embedding of `SFExpressCoordinator._fetch_routes`: empty input or a failed call yields an
empty map; otherwise fold the loop body over the response items. -/
def fetchRoutes (waybill_numbers : List String)
    (resp : FetchResult (List RouteQueryItem))
    (pickupResp : String → FetchResult (Option String))
    (cache : Cache) : RouteMap × Cache :=
  if waybill_numbers.isEmpty then ([], cache)
  else
    match resp with
    | .fail => ([], cache)
    | .ok items => items.foldl (processItem pickupResp) ([], cache)

/-- The enrichment loop of `_async_update_data` for one waybill of the fresh
list response: attach the route list when present in the route map, and the
pickup code only when the latest route has `opCode == "125"` and the stored
code is truthy. -/
def enrichWaybill (routes : RouteMap) (w : WaybillIn) : Waybill :=
  match routes.lookup w.waybillno with
  | none => { toWaybillIn := w, routes := none, pickupCode := none }
  | some route_data =>
    let pickup :=
      match route_data.routes with
      | latest_route :: _ =>
        if latest_route.opCode == "125" && pyTruthy route_data.pickupCode then
          route_data.pickupCode
        else none
      | [] => none
    { toWaybillIn := w, routes := some route_data.routes, pickupCode := pickup }

/-- The cache purge at the top of `_async_update_data`: remove the cache entry
of every waybill of the previous snapshot whose status is `"4"` (delivered). -/
def purgeDelivered (prev : Option Snapshot) (cache : Cache) : Cache :=
  match prev with
  | none => cache
  | some dataList =>
    let delivered_waybills :=
      (dataList.filter (fun w => w.waybillStatus == "4")).map (fun w => w.waybillno)
    delivered_waybills.foldl (fun c wno => eraseKey wno c) cache

/-- The fetch phase of `_async_update_data` (everything after the purge): a
failed list fetch raises (`.fail`); otherwise fetch routes for the in-transit
waybills and enrich the fresh list. -/
def updateFetchPhase (cache : Cache) (listResp : FetchResult (List WaybillIn))
    (routeResp : FetchResult (List RouteQueryItem))
    (pickupResp : String → FetchResult (Option String)) :
    FetchResult Snapshot × Cache :=
  match listResp with
  | .fail => (.fail, cache)
  | .ok dataList =>
    let waybills_in_transit :=
      (dataList.filter (fun w => !(w.waybillStatus == "4"))).map (fun w => w.waybillno)
    let r := fetchRoutes waybills_in_transit routeResp pickupResp cache
    (.ok (dataList.map (enrichWaybill r.1)), r.2)

/-- Embedding of `SFExpressCoordinator._async_update_data`: purge the cache of delivered
waybills, then run the fetch phase. -/
def updateData (prev : Option Snapshot) (cache : Cache)
    (listResp : FetchResult (List WaybillIn))
    (routeResp : FetchResult (List RouteQueryItem))
    (pickupResp : String → FetchResult (Option String)) :
    FetchResult Snapshot × Cache :=
  updateFetchPhase (purgeDelivered prev cache) listResp routeResp pickupResp

/-- Coordinator state across refresh cycles: `self.data` (the last good
snapshot) and `self._pickup_code_cache`. -/
structure CoordState where
  data : Option Snapshot
  cache : Cache
deriving DecidableEq

/-- One refresh cycle as driven by the host framework: on success the snapshot
is replaced, on failure (raise) the previous snapshot is kept; the cache is
coordinator state and persists either way. -/
def runCycle (st : CoordState) (listResp : FetchResult (List WaybillIn))
    (routeResp : FetchResult (List RouteQueryItem))
    (pickupResp : String → FetchResult (Option String)) : CoordState :=
  match updateData st.data st.cache listResp routeResp pickupResp with
  | (.fail, cache2) => { data := st.data, cache := cache2 }
  | (.ok snap, cache2) => { data := some snap, cache := cache2 }

/-! ## Sensor projections (`SFExpressWaybillSensor`) -/

/-- Embedding of `SFExpressWaybillSensor.native_value`: `None` without a snapshot, else the
number of waybills whose status is not `"4"`. -/
def native_value (data : Option Snapshot) : Option Nat :=
  match data with
  | none => none
  | some dataList => some (dataList.countP (fun w => !(w.waybillStatus == "4")))

/-- One entry of the `waybills` attribute list built by
`SFExpressWaybillSensor.extra_state_attributes`. -/
structure WaybillAttr where
  waybillno : String
  updateDateTime : String
  expectedDeliveryTime : String
  waybillStatusMessage : String
  originateContacts : String
  pickupCode : Option String
  routes : Option (List RouteEvent)
deriving DecidableEq

/-- The attribute record built for one undelivered waybill: plain fields copied,
pickup code copied when present, routes re-sorted descending when present. -/
def mkWaybillAttr (w : Waybill) : WaybillAttr :=
  { waybillno := w.waybillno
    updateDateTime := w.updateDateTime
    expectedDeliveryTime := w.expectedDeliveryTime
    waybillStatusMessage := w.waybillStatusMessage
    originateContacts := w.originateContacts
    pickupCode := w.pickupCode
    routes := w.routes.map sortRoutes }

/-- Embedding of `SFExpressWaybillSensor.extra_state_attributes`: empty without a snapshot;
else one attribute record per waybill whose status is not `"4"`. -/
def extra_state_attributes (data : Option Snapshot) : List WaybillAttr :=
  match data with
  | none => []
  | some dataList =>
    (dataList.filter (fun w => !(w.waybillStatus == "4"))).map mkWaybillAttr

/-! ## Member verification (`config_flow.SFExpressConfigFlow._verify_sf_express`) -/

/-- A parsed JSON value for the `success` field of the verify-member response. -/
inductive JsonValue where
  | str (s : String)
  | bool (b : Bool)
  | null
deriving DecidableEq

/-- The two error classes of `config_flow.py`. -/
inductive VerifyError where
  | cannotConnect
  | invalidAuth (msg : String)
deriving DecidableEq

/-- Embedding of `_verify_sf_express` response handling: non-200 raises `CannotConnect`;
`data["success"] == "false"` raises `InvalidAuth` with the upstream
`errorMessage` (default `"Unknown error"`); anything else succeeds. -/
def verify_sf_express (status : Nat) (success : JsonValue)
    (errorMessage : Option String) : Except VerifyError Unit :=
  if status ≠ 200 then .error .cannotConnect
  else if success = .str "false" then
    .error (.invalidAuth (errorMessage.getD "Unknown error"))
  else .ok ()

/-! ## Helper lemmas: cache and route-map lookups -/

theorem lookup_filterNe {β : Type} (k k2 : String) (m : List (String × β)) :
    (m.filter (fun p => !(p.1 == k2))).lookup k = if k = k2 then none else m.lookup k := by
  induction m with
  | nil => simp
  | cons p t ih =>
    rw [List.filter_cons]
    by_cases h1 : p.1 = k2
    · rw [show (!(p.1 == k2)) = false from by simp [h1], if_neg (by simp)]
      rw [ih]
      by_cases h2 : k = k2
      · simp [h2]
      · have hne : (k == p.1) = false := by
          simp only [beq_eq_false_iff_ne, ne_eq]
          intro hh
          exact h2 (by rw [hh, h1])
        simp [List.lookup, hne, h2]
    · rw [show (!(p.1 == k2)) = true from by simp [h1], if_pos rfl]
      by_cases h2 : k = p.1
      · have hk2 : ¬ k = k2 := fun hh => h1 (by rw [← h2, hh])
        simp [List.lookup, h2, hk2, h1]
      · have hne : (k == p.1) = false := by simp [h2]
        simp [List.lookup, hne, ih]

theorem lookup_eraseKey (k k2 : String) (c : Cache) :
    (eraseKey k2 c).lookup k = if k = k2 then none else c.lookup k := by
  unfold eraseKey
  exact lookup_filterNe k k2 c

theorem lookup_purgeFold (ks : List String) (c : Cache) (k : String) :
    (ks.foldl (fun c2 wno => eraseKey wno c2) c).lookup k =
      if k ∈ ks then none else c.lookup k := by
  induction ks generalizing c with
  | nil => simp
  | cons hd tl ih =>
    simp only [List.foldl_cons]
    rw [ih]
    by_cases h1 : k ∈ tl
    · simp [h1]
    · by_cases h2 : k = hd <;> simp [h1, h2, lookup_eraseKey]

theorem lookup_insertList {β : Type} (k k2 : String) (v : β) (m : List (String × β)) :
    ((k2, v) :: m.filter (fun p => !(p.1 == k2))).lookup k =
      if k = k2 then some v else m.lookup k := by
  by_cases h : k = k2
  · simp [List.lookup, h]
  · have hb : (k == k2) = false := by simp [h]
    simp only [List.lookup, hb, if_neg h]
    rw [lookup_filterNe, if_neg h]

theorem lookup_insertEntry (k k2 v : String) (c : Cache) :
    (insertEntry k2 v c).lookup k = if k = k2 then some v else c.lookup k := by
  unfold insertEntry eraseKey
  exact lookup_insertList k k2 v c

theorem lookup_insertRoute (k k2 : String) (v : RouteInfo) (m : RouteMap) :
    (insertRoute k2 v m).lookup k = if k = k2 then some v else m.lookup k := by
  unfold insertRoute
  exact lookup_insertList k k2 v m

/-! ## Helper lemmas: the route-sort order -/

theorem strLtB_irrefl (l : List Char) : strLtB l l = false := by
  induction l with
  | nil => rfl
  | cons a as ih => simp [strLtB, ih]

theorem strLtB_asymm : ∀ {l1 l2 : List Char}, strLtB l1 l2 = true → strLtB l2 l1 = false
  | [], [], h => by simp [strLtB] at h
  | [], _ :: _, _ => rfl
  | _ :: _, [], h => by simp [strLtB] at h
  | a :: as, b :: bs, h => by
    by_cases h1 : a.toNat < b.toNat
    · have h2 : ¬ b.toNat < a.toNat := by omega
      simp [strLtB, h1, h2]
    · by_cases h2 : b.toNat < a.toNat
      · simp [strLtB, h1, h2] at h
      · simp only [strLtB, if_neg h1, if_neg h2] at h
        simp only [strLtB, if_neg h1, if_neg h2]
        exact strLtB_asymm h

theorem strLtB_trans : ∀ {l1 l2 l3 : List Char},
    strLtB l1 l2 = true → strLtB l2 l3 = true → strLtB l1 l3 = true
  | _, [], _, h1, _ => by simp [strLtB] at h1
  | _, _ :: _, [], _, h2 => by simp [strLtB] at h2
  | [], _ :: _, _ :: _, _, _ => rfl
  | a :: as, b :: bs, c :: cs, h1, h2 => by
    by_cases hab : a.toNat < b.toNat
    · by_cases hbc : b.toNat < c.toNat
      · have hac : a.toNat < c.toNat := by omega
        simp [strLtB, hac]
      · by_cases hcb : c.toNat < b.toNat
        · simp [strLtB, hbc, hcb] at h2
        · have hbceq : b.toNat = c.toNat := by omega
          have hac : a.toNat < c.toNat := by omega
          simp [strLtB, hac]
    · by_cases hba : b.toNat < a.toNat
      · simp [strLtB, hab, hba] at h1
      · have habeq : a.toNat = b.toNat := by omega
        simp only [strLtB, if_neg hab, if_neg hba] at h1
        by_cases hbc : b.toNat < c.toNat
        · have hac : a.toNat < c.toNat := by omega
          simp [strLtB, hac]
        · by_cases hcb : c.toNat < b.toNat
          · simp [strLtB, hbc, hcb] at h2
          · simp only [strLtB, if_neg hbc, if_neg hcb] at h2
            have hac : ¬ a.toNat < c.toNat := by omega
            have hca : ¬ c.toNat < a.toNat := by omega
            simp only [strLtB, if_neg hac, if_neg hca]
            exact strLtB_trans h1 h2

theorem strLtB_eq_of_both_false : ∀ {l1 l2 : List Char},
    strLtB l1 l2 = false → strLtB l2 l1 = false → l1 = l2
  | [], [], _, _ => rfl
  | [], _ :: _, h1, _ => by simp [strLtB] at h1
  | _ :: _, [], _, h2 => by simp [strLtB] at h2
  | a :: as, b :: bs, h1, h2 => by
    by_cases hab : a.toNat < b.toNat
    · simp [strLtB, hab] at h1
    · by_cases hba : b.toNat < a.toNat
      · simp [strLtB, hba] at h2
      · simp only [strLtB, if_neg hab, if_neg hba] at h1 h2
        have htn : a.toNat = b.toNat := by omega
        have hchar : a = b := Char.ext (UInt32.ext htn)
        rw [hchar, strLtB_eq_of_both_false h1 h2]

theorem keyLtB_asymm {a b : RouteEvent} (h : keyLtB a b = true) : keyLtB b a = false := by
  unfold keyLtB at h ⊢
  rcases Bool.or_eq_true_iff.mp h with hd | ht
  · have h1 : strLtB b.scanDate.data a.scanDate.data = false := strLtB_asymm hd
    have h2 : (b.scanDate == a.scanDate) = false := by
      simp only [beq_eq_false_iff_ne, ne_eq]
      intro hh
      rw [show a.scanDate = b.scanDate from hh.symm, strLtB_irrefl] at hd
      exact Bool.false_ne_true hd
    simp [h1, h2]
  · have hand := Bool.and_eq_true_iff.mp ht
    have hdeq : a.scanDate = b.scanDate := by
      have := hand.1
      simpa [beq_iff_eq] using this
    have h1 : strLtB b.scanDate.data a.scanDate.data = false := by
      rw [← hdeq, strLtB_irrefl]
    have h2 : strLtB b.scanTime.data a.scanTime.data = false := strLtB_asymm hand.2
    simp [h1, h2]

theorem keyLtB_trans {a b c : RouteEvent} (h1 : keyLtB a b = true)
    (h2 : keyLtB b c = true) : keyLtB a c = true := by
  unfold keyLtB at h1 h2 ⊢
  rcases Bool.or_eq_true_iff.mp h1 with hd1 | ht1 <;>
    rcases Bool.or_eq_true_iff.mp h2 with hd2 | ht2
  · exact Bool.or_eq_true_iff.mpr (Or.inl (strLtB_trans hd1 hd2))
  · have hdeq : b.scanDate = c.scanDate := by
      simpa [beq_iff_eq] using (Bool.and_eq_true_iff.mp ht2).1
    exact Bool.or_eq_true_iff.mpr (Or.inl (hdeq ▸ hd1))
  · have hdeq : a.scanDate = b.scanDate := by
      simpa [beq_iff_eq] using (Bool.and_eq_true_iff.mp ht1).1
    exact Bool.or_eq_true_iff.mpr (Or.inl (by rw [hdeq]; exact hd2))
  · have hand1 := Bool.and_eq_true_iff.mp ht1
    have hand2 := Bool.and_eq_true_iff.mp ht2
    have hdeq1 : a.scanDate = b.scanDate := by simpa [beq_iff_eq] using hand1.1
    have hdeq2 : b.scanDate = c.scanDate := by simpa [beq_iff_eq] using hand2.1
    refine Bool.or_eq_true_iff.mpr (Or.inr (Bool.and_eq_true_iff.mpr ⟨?_, ?_⟩))
    · simp [beq_iff_eq, hdeq1, hdeq2]
    · exact strLtB_trans hand1.2 hand2.2

theorem keyLtB_bothFalse_eq {a b : RouteEvent} (h1 : keyLtB a b = false)
    (h2 : keyLtB b a = false) : a.scanDate = b.scanDate ∧ a.scanTime = b.scanTime := by
  unfold keyLtB at h1 h2
  have hor1 := Bool.or_eq_false_iff.mp h1
  have hor2 := Bool.or_eq_false_iff.mp h2
  have hdeq : a.scanDate = b.scanDate :=
    String.ext (strLtB_eq_of_both_false hor1.1 hor2.1)
  refine ⟨hdeq, ?_⟩
  have hb1 : (a.scanDate == b.scanDate) = true := by simp [beq_iff_eq, hdeq]
  have hb2 : (b.scanDate == a.scanDate) = true := by simp [beq_iff_eq, hdeq]
  rw [hb1, Bool.true_and] at hor1
  rw [hb2, Bool.true_and] at hor2
  exact String.ext (strLtB_eq_of_both_false hor1.2 hor2.2)

instance : IsTotal RouteEvent (fun a b => keyLtB a b = false) := ⟨fun a b => by
  by_cases h : keyLtB a b = true
  · exact Or.inr (keyLtB_asymm h)
  · exact Or.inl (Bool.not_eq_true _ ▸ h)⟩

instance : IsTrans RouteEvent (fun a b => keyLtB a b = false) := ⟨fun a b c hab hbc => by
  by_cases hba : keyLtB b a = true
  · by_contra hac
    have hac2 : keyLtB a c = true := Bool.not_eq_false _ ▸ hac
    have : keyLtB b c = true := keyLtB_trans hba hac2
    rw [hbc] at this
    exact Bool.false_ne_true this
  · have hba2 : keyLtB b a = false := Bool.not_eq_true _ ▸ hba
    obtain ⟨hd, ht⟩ := keyLtB_bothFalse_eq hab hba2
    have hcongr : keyLtB a c = keyLtB b c := by unfold keyLtB; rw [hd, ht]
    rw [hcongr]
    exact hbc⟩

theorem sortRoutes_perm (l : List RouteEvent) : (sortRoutes l).Perm l :=
  List.perm_insertionSort _ l

theorem sortRoutes_pairwise (l : List RouteEvent) :
    (sortRoutes l).Pairwise (fun a b => keyLtB a b = false) :=
  List.sorted_insertionSort _ l

/-! ## Helper lemmas: strings and cycle state -/

theorem strAppend_cancel_right {a b c : String} (h : a ++ c = b ++ c) : a = b := by
  apply String.ext
  have hd := congrArg String.data h
  simp only [String.data_append] at hd
  exact List.append_cancel_right hd

theorem strAppend_cancel_left {a b c : String} (h : a ++ b = a ++ c) : b = c := by
  apply String.ext
  have hd := congrArg String.data h
  simp only [String.data_append] at hd
  exact List.append_cancel_left hd

theorem runCycle_cache (st : CoordState) (listResp : FetchResult (List WaybillIn))
    (routeResp : FetchResult (List RouteQueryItem))
    (pickupResp : String → FetchResult (Option String)) :
    (runCycle st listResp routeResp pickupResp).cache =
      (updateData st.data st.cache listResp routeResp pickupResp).2 := by
  unfold runCycle
  rcases h : updateData st.data st.cache listResp routeResp pickupResp with ⟨res, c2⟩
  cases res <;> simp

/-! ## C1: the token signer computes the nested-MD5 formula of the spec -/

/-- C1: for all string inputs, `generate_syttoken` returns
`MD5hex(MD5hex(deviceId + timeInterval + clientVersion + firstSecret + regionCode
+ languageCode + MD5hex(bodyJson + "&" + bodySecret) + jsBundle + "&" + firstSecret)
+ "&" + secondSecret)` where the three secrets are the base64-decodings of the
constants.  The embedding is a pure total function of its string arguments
(deterministic, no validation, no side effects); the final conjuncts compute
the three decoded secrets. -/
theorem sfx_C1_signer_formula :
    (∀ body_json device_id client_version time_interval region_code language_code
        js_bundle : String,
      generate_syttoken body_json device_id client_version time_interval
          region_code language_code js_bundle =
        md5_hex (md5_hex (device_id ++ time_interval ++ client_version ++
            decode_secret FIRST_SECRET ++ region_code ++ language_code ++
            md5_hex (body_json ++ "&" ++ decode_secret BODY_SECRET) ++
            js_bundle ++ "&" ++ decode_secret FIRST_SECRET) ++
          "&" ++ decode_secret SECOND_SECRET)) ∧
    decode_secret BODY_SECRET = "Nwp@9B2VOPMfPQi4B9N~&PJFQYq6CSOw" ∧
    decode_secret FIRST_SECRET = "ev2WMB~q4a&aySDvEND57I8B+gnVD^@o" ∧
    decode_secret SECOND_SECRET = "6hn8TTekOpEK92a%+uygGAlhi$ba$Y62" :=
  ⟨fun _ _ _ _ _ _ _ => rfl, by decide, by decide, by decide⟩

/-! ## C7: member verification -/

/-- C7: `_verify_sf_express` succeeds iff the HTTP status is 200 and the
`success` field is not the string `"false"`; a non-200 status maps to
`CannotConnect`, and the API-level failure (`success == "false"`) maps to
`InvalidAuth` carrying the upstream `errorMessage`. -/
theorem sfx_C7_verify_member :
    (∀ (status : Nat) (success : JsonValue) (errorMessage : Option String),
        verify_sf_express status success errorMessage = .ok () ↔
          (status = 200 ∧ success ≠ .str "false")) ∧
    (∀ (status : Nat) (success : JsonValue) (errorMessage : Option String),
        status ≠ 200 →
        verify_sf_express status success errorMessage = .error .cannotConnect) ∧
    (∀ errorMessage : Option String,
        verify_sf_express 200 (.str "false") errorMessage =
          .error (.invalidAuth (errorMessage.getD "Unknown error"))) := by
  refine ⟨fun status success errorMessage => ?_,
    fun status success errorMessage h => ?_, fun errorMessage => ?_⟩
  · unfold verify_sf_express
    split_ifs with h1 h2 <;> simp_all
  · unfold verify_sf_express
    rw [if_pos h]
  · rfl

/-- Witness for C7 at concrete inputs. -/
theorem sfx_C7_verify_member_witness :
    verify_sf_express 404 (.str "true") none = .error .cannotConnect ∧
    (verify_sf_express 200 (.bool true) none = .ok () ↔
      (200 = 200 ∧ JsonValue.bool true ≠ .str "false")) :=
  ⟨sfx_C7_verify_member.2.1 404 (.str "true") none (by decide),
   sfx_C7_verify_member.1 200 (.bool true) none⟩

/-! ## C9: active-shipment sensor value -/

/-- C9: with a snapshot, `native_value` is the number of waybills whose status
is not `"4"`; with no snapshot it is `none` and the attribute set is empty. -/
theorem sfx_C9_active_count :
    native_value none = none ∧
    extra_state_attributes none = [] ∧
    (∀ snap : Snapshot,
        native_value (some snap) =
          some ((snap.filter (fun w => !(w.waybillStatus == "4"))).length)) := by
  refine ⟨rfl, rfl, fun snap => ?_⟩
  simp [native_value, List.countP_eq_length_filter]

/-! ## C10: the attribute list contains exactly the undelivered waybills -/

/-- C10: the attribute list is exactly the image of the undelivered waybills
(status not `"4"`, in order), keeps their waybill numbers, and its length
always equals the active-shipment count. -/
theorem sfx_C10_attrs_exactly_active :
    ∀ snap : Snapshot,
      extra_state_attributes (some snap) =
        (snap.filter (fun w => !(w.waybillStatus == "4"))).map mkWaybillAttr ∧
      (extra_state_attributes (some snap)).map (fun a => a.waybillno) =
        (snap.filter (fun w => !(w.waybillStatus == "4"))).map (fun w => w.waybillno) ∧
      native_value (some snap) = some (extra_state_attributes (some snap)).length := by
  intro snap
  refine ⟨rfl, ?_, ?_⟩
  · simp [extra_state_attributes, List.map_map, Function.comp_def, mkWaybillAttr]
  · simp [native_value, extra_state_attributes, List.countP_eq_length_filter]

/-! ## Helper lemmas: the route-fetch fold -/

theorem processItem_fst (p : String → FetchResult (Option String))
    (acc : RouteMap × Cache) (item : RouteQueryItem) :
    ∃ pk, (processItem p acc item).1 =
      insertRoute item.waybillNo ⟨sortRoutes item.barNewList, pk⟩ acc.1 := by
  unfold processItem
  rcases h : sortRoutes item.barNewList with _ | ⟨e, rest⟩ <;> simp only [h]
  · exact ⟨none, rfl⟩
  · split_ifs with h1 h2
    · exact ⟨_, rfl⟩
    · exact ⟨none, rfl⟩
    · exact ⟨none, rfl⟩

theorem lookup_foldProcess (p : String → FetchResult (Option String)) :
    ∀ (items : List RouteQueryItem) (acc : RouteMap × Cache) (wb : String)
      (rd : RouteInfo),
      (items.foldl (processItem p) acc).1.lookup wb = some rd →
      (∃ item ∈ items, item.waybillNo = wb ∧ rd.routes = sortRoutes item.barNewList) ∨
        acc.1.lookup wb = some rd := by
  intro items
  induction items with
  | nil => intro acc wb rd h; exact Or.inr h
  | cons hd tl ih =>
    intro acc wb rd h
    simp only [List.foldl_cons] at h
    rcases ih (processItem p acc hd) wb rd h with hin | hacc
    · obtain ⟨item, hmem, hprop⟩ := hin
      exact Or.inl ⟨item, List.mem_cons_of_mem _ hmem, hprop⟩
    · obtain ⟨pk, hfst⟩ := processItem_fst p acc hd
      rw [hfst, lookup_insertRoute] at hacc
      by_cases hwb : wb = hd.waybillNo
      · rw [if_pos hwb] at hacc
        cases hacc
        exact Or.inl ⟨hd, List.mem_cons_self _ _, hwb.symm, rfl⟩
      · rw [if_neg hwb] at hacc
        exact Or.inr hacc

/-! ## C3: route lists are emitted sorted descending by (scanDate, scanTime) -/

/-- C3: `sortRoutes` (used both by `_fetch_routes` and by
`extra_state_attributes`) returns a permutation of its input that is pairwise
descending: an event never precedes another whose `(scanDate, scanTime)` key is
strictly greater, so of two events with `(d1,t1) < (d2,t2)` the `(d2,t2)` one
comes first.  Every route list stored by the route query is `sortRoutes` of a
response item's `barNewList`, and every route list emitted in the sensor
attributes is `sortRoutes` of the stored list. -/
theorem sfx_C3_routes_sorted :
    (∀ l : List RouteEvent,
        (sortRoutes l).Perm l ∧
        (sortRoutes l).Pairwise (fun a b => keyLtB a b = false)) ∧
    (∀ (items : List RouteQueryItem) (pickupResp : String → FetchResult (Option String))
        (cache : Cache) (nums : List String) (wb : String) (rd : RouteInfo),
        (fetchRoutes nums (.ok items) pickupResp cache).1.lookup wb = some rd →
        ∃ item ∈ items, item.waybillNo = wb ∧ rd.routes = sortRoutes item.barNewList) ∧
    (∀ (snap : Snapshot) (attr : WaybillAttr),
        attr ∈ extra_state_attributes (some snap) →
        ∃ w ∈ snap, attr.routes = w.routes.map sortRoutes) := by
  refine ⟨fun l => ⟨sortRoutes_perm l, sortRoutes_pairwise l⟩, ?_, ?_⟩
  · intro items p cache nums wb rd h
    unfold fetchRoutes at h
    by_cases hne : nums.isEmpty
    · rw [if_pos hne] at h
      simp [List.lookup] at h
    · rw [if_neg hne] at h
      rcases lookup_foldProcess p items ([], cache) wb rd h with hin | hacc
      · exact hin
      · simp [List.lookup] at hacc
  · intro snap attr hmem
    simp only [extra_state_attributes, List.mem_map, List.mem_filter] at hmem
    obtain ⟨w, ⟨hw, _⟩, rfl⟩ := hmem
    exact ⟨w, hw, rfl⟩

/-- Witness for C3 at concrete inputs. -/
theorem sfx_C3_routes_sorted_witness :
    ((sortRoutes [⟨"2025-01-01", "10:00", "50"⟩, ⟨"2025-01-02", "08:00", "80"⟩]).Perm
        [⟨"2025-01-01", "10:00", "50"⟩, ⟨"2025-01-02", "08:00", "80"⟩] ∧
      (sortRoutes [⟨"2025-01-01", "10:00", "50"⟩, ⟨"2025-01-02", "08:00", "80"⟩]).Pairwise
        (fun a b => keyLtB a b = false)) ∧
    (∃ item ∈ [RouteQueryItem.mk "A"
          [⟨"2025-01-01", "10:00", "50"⟩, ⟨"2025-01-02", "08:00", "80"⟩]],
        item.waybillNo = "A" ∧
        (RouteInfo.mk [⟨"2025-01-02", "08:00", "80"⟩, ⟨"2025-01-01", "10:00", "50"⟩]
            none).routes = sortRoutes item.barNewList) ∧
    (∃ w ∈ [Waybill.mk ⟨"A", "1", "u", "x", "m", "o"⟩
          (some [⟨"2025-01-01", "10:00", "50"⟩]) none],
        (mkWaybillAttr (Waybill.mk ⟨"A", "1", "u", "x", "m", "o"⟩
            (some [⟨"2025-01-01", "10:00", "50"⟩]) none)).routes =
          w.routes.map sortRoutes) :=
  ⟨sfx_C3_routes_sorted.1 _,
   sfx_C3_routes_sorted.2.1
     [⟨"A", [⟨"2025-01-01", "10:00", "50"⟩, ⟨"2025-01-02", "08:00", "80"⟩]⟩]
     (fun _ => .fail) [] ["A"] "A" _ (by decide),
   sfx_C3_routes_sorted.2.2
     [Waybill.mk ⟨"A", "1", "u", "x", "m", "o"⟩ (some [⟨"2025-01-01", "10:00", "50"⟩]) none]
     _ (by decide)⟩

/-! ## C4: delivered waybills are purged from the cache before fetching -/

/-- C4: at the start of a refresh cycle the purge removes the cache entry of
every waybill of the previous snapshot whose status is `"4"`, leaves every
other key unchanged, and `_async_update_data` runs the whole fetch phase on the
purged cache (so the next lookup for a delivered waybill misses). -/
theorem sfx_C4_purge_delivered :
    (∀ (prevList : Snapshot) (cache : Cache) (w : Waybill),
        w ∈ prevList → w.waybillStatus = "4" →
        (purgeDelivered (some prevList) cache).lookup w.waybillno = none) ∧
    (∀ (prevList : Snapshot) (cache : Cache) (k : String),
        (∀ w ∈ prevList, w.waybillStatus = "4" → w.waybillno ≠ k) →
        (purgeDelivered (some prevList) cache).lookup k = cache.lookup k) ∧
    (∀ (prev : Option Snapshot) (cache : Cache)
        (listResp : FetchResult (List WaybillIn))
        (routeResp : FetchResult (List RouteQueryItem))
        (pickupResp : String → FetchResult (Option String)),
        updateData prev cache listResp routeResp pickupResp =
          updateFetchPhase (purgeDelivered prev cache) listResp routeResp pickupResp) := by
  refine ⟨?_, ?_, fun _ _ _ _ _ => rfl⟩
  · intro prevList cache w hw h4
    show ((((prevList.filter (fun w => w.waybillStatus == "4")).map
        (fun w => w.waybillno)).foldl (fun c2 wno => eraseKey wno c2) cache).lookup
        w.waybillno) = none
    rw [lookup_purgeFold, if_pos]
    exact List.mem_map.mpr ⟨w, List.mem_filter.mpr ⟨hw, by simp [h4]⟩, rfl⟩
  · intro prevList cache k hk
    show ((((prevList.filter (fun w => w.waybillStatus == "4")).map
        (fun w => w.waybillno)).foldl (fun c2 wno => eraseKey wno c2) cache).lookup
        k) = cache.lookup k
    rw [lookup_purgeFold, if_neg]
    intro hmem
    obtain ⟨w, hwf, hwno⟩ := List.mem_map.mp hmem
    obtain ⟨hwmem, hst⟩ := List.mem_filter.mp hwf
    exact hk w hwmem (by simpa using hst) hwno

/-- Witness for C4 at concrete inputs. -/
theorem sfx_C4_purge_delivered_witness :
    (purgeDelivered (some [Waybill.mk ⟨"A", "4", "u", "x", "m", "o"⟩ none none])
        [("A", "C1"), ("B", "C2")]).lookup "A" = none ∧
    (purgeDelivered (some [Waybill.mk ⟨"A", "4", "u", "x", "m", "o"⟩ none none])
        [("A", "C1"), ("B", "C2")]).lookup "B" =
      (([("A", "C1"), ("B", "C2")] : Cache).lookup "B") :=
  ⟨sfx_C4_purge_delivered.1 _ _ (Waybill.mk ⟨"A", "4", "u", "x", "m", "o"⟩ none none)
     (by decide) rfl,
   sfx_C4_purge_delivered.2.1 _ _ "B" (by decide)⟩

/-! ## C6: failure handling of each fetch -/

/-- C6: a failed route query yields an empty route map and an unchanged cache;
a failed pickup-code query (on a cache miss) yields `none` and an unchanged
cache; neither aborts the cycle: a cycle whose list fetch succeeded always
returns a snapshot.  A failed list fetch makes the whole cycle fail, and the
previous snapshot is left untouched. -/
theorem sfx_C6_error_handling :
    (∀ (nums : List String) (pickupResp : String → FetchResult (Option String))
        (cache : Cache), fetchRoutes nums .fail pickupResp cache = ([], cache)) ∧
    (∀ (cache : Cache) (wb : String), cache.lookup wb = none →
        fetchPickupCode cache wb .fail = (none, cache)) ∧
    (∀ (prev : Option Snapshot) (cache : Cache) (dataList : List WaybillIn)
        (routeResp : FetchResult (List RouteQueryItem))
        (pickupResp : String → FetchResult (Option String)),
        ∃ snap, (updateData prev cache (.ok dataList) routeResp pickupResp).1 = .ok snap) ∧
    (∀ (prev : Option Snapshot) (cache : Cache)
        (routeResp : FetchResult (List RouteQueryItem))
        (pickupResp : String → FetchResult (Option String)),
        (updateData prev cache .fail routeResp pickupResp).1 = .fail) ∧
    (∀ (st : CoordState) (routeResp : FetchResult (List RouteQueryItem))
        (pickupResp : String → FetchResult (Option String)),
        (runCycle st .fail routeResp pickupResp).data = st.data) := by
  refine ⟨?_, ?_, ?_, fun _ _ _ _ => rfl, fun st r p => rfl⟩
  · intro nums p cache
    unfold fetchRoutes
    split <;> rfl
  · intro cache wb h
    unfold fetchPickupCode
    rw [h]
  · intro prev cache dataList routeResp pickupResp
    exact ⟨_, rfl⟩

/-- Witness for C6 at concrete inputs. -/
theorem sfx_C6_error_handling_witness :
    fetchPickupCode [("B", "C2")] "A" .fail = (none, [("B", "C2")]) :=
  sfx_C6_error_handling.2.1 [("B", "C2")] "A" (by decide)

/-! ## C2: pickup-code attachment -/

/-- C2 (counterexample): the claim says a waybill whose latest route event has
opCode `"125"` and whose pickup-code resolution returned a *non-null* code
carries that code.  Here the resolution returns `some ""` — non-null — yet the
code is falsy in Python, so `_fetch_routes` and `_async_update_data` attach no
pickup code: the snapshot's waybill carries `none`. -/
theorem sfx_C2_counterexample :
    fetchPickupCode [] "A" (.ok (some "")) = (some "", []) ∧
    (some "" : Option String) ≠ none ∧
    updateData none [] (.ok [⟨"A", "1", "u", "x", "m", "o"⟩])
        (.ok [⟨"A", [⟨"2025-01-01", "10:00", "125"⟩]⟩]) (fun _ => .ok (some "")) =
      (.ok [⟨⟨"A", "1", "u", "x", "m", "o"⟩,
            some [⟨"2025-01-01", "10:00", "125"⟩], none⟩], []) :=
  ⟨by decide, by decide, by decide⟩

theorem enrich_pickup_sound (rmap : RouteMap) (w : WaybillIn)
    (h : (enrichWaybill rmap w).pickupCode ≠ none) :
    ∃ e rest, (enrichWaybill rmap w).routes = some (e :: rest) ∧ e.opCode = "125" ∧
      pyTruthy ((enrichWaybill rmap w).pickupCode) = true := by
  rcases hl : rmap.lookup w.waybillno with _ | rd
  · simp [enrichWaybill, hl] at h
  · rcases hr : rd.routes with _ | ⟨latest, rest⟩
    · simp [enrichWaybill, hl, hr] at h
    · by_cases hc : (latest.opCode == "125" && pyTruthy rd.pickupCode) = true
      · refine ⟨latest, rest, ?_, ?_, ?_⟩
        · simp [enrichWaybill, hl, hr]
        · have := (Bool.and_eq_true_iff.mp hc).1
          simpa [beq_iff_eq] using this
        · have ht := (Bool.and_eq_true_iff.mp hc).2
          have hop : latest.opCode = "125" := by
            simpa [beq_iff_eq] using (Bool.and_eq_true_iff.mp hc).1
          simp [enrichWaybill, hl, hr, hop, ht]
      · have hc2 : (latest.opCode == "125" && pyTruthy rd.pickupCode) = false :=
          Bool.not_eq_true _ ▸ hc
        simp [enrichWaybill, hl, hr, hc2] at h

/-- C2 (amended: "non-null" becomes "truthy/non-empty"): (1) in any snapshot a
refresh cycle returns, a waybill carrying a pickup code has a latest route
event with opCode `"125"` and a truthy code — in particular a waybill whose
latest event has any other opCode carries no pickup code, cached or not;
(2) when the latest sorted event of a route item has opCode `"125"` and the
cache-or-fetch resolution returns a truthy code, `_fetch_routes` stores exactly
that code; (3) `_async_update_data` copies a stored truthy code onto the
waybill when its latest route event has opCode `"125"`. -/
theorem sfx_C2_pickup_code_attachment :
    (∀ (prev : Option Snapshot) (cache : Cache) (dataList : List WaybillIn)
        (routeResp : FetchResult (List RouteQueryItem))
        (pickupResp : String → FetchResult (Option String))
        (snap : Snapshot) (c2 : Cache),
        updateData prev cache (.ok dataList) routeResp pickupResp = (.ok snap, c2) →
        ∀ w ∈ snap, w.pickupCode ≠ none →
          ∃ e rest, w.routes = some (e :: rest) ∧ e.opCode = "125" ∧
            pyTruthy w.pickupCode = true) ∧
    (∀ (cache : Cache) (pickupResp : String → FetchResult (Option String))
        (m : RouteMap) (item : RouteQueryItem) (e : RouteEvent) (rest : List RouteEvent),
        sortRoutes item.barNewList = e :: rest → e.opCode = "125" →
        pyTruthy (fetchPickupCode cache item.waybillNo (pickupResp item.waybillNo)).1 = true →
        (processItem pickupResp (m, cache) item).1.lookup item.waybillNo =
          some ⟨e :: rest,
            (fetchPickupCode cache item.waybillNo (pickupResp item.waybillNo)).1⟩) ∧
    (∀ (rmap : RouteMap) (w : WaybillIn) (rd : RouteInfo) (e : RouteEvent)
        (rest : List RouteEvent),
        rmap.lookup w.waybillno = some rd → rd.routes = e :: rest →
        e.opCode = "125" → pyTruthy rd.pickupCode = true →
        (enrichWaybill rmap w).pickupCode = rd.pickupCode ∧
          (enrichWaybill rmap w).routes = some rd.routes) := by
  refine ⟨?_, ?_, ?_⟩
  · intro prev cache dataList routeResp pickupResp snap c2 h w hw hpc
    have hsnap : dataList.map
        (enrichWaybill (fetchRoutes
          ((dataList.filter (fun w => !(w.waybillStatus == "4"))).map (fun w => w.waybillno))
          routeResp pickupResp (purgeDelivered prev cache)).1) = snap := by
      have h1 := congrArg Prod.fst h
      simp only [updateData, updateFetchPhase] at h1
      exact FetchResult.ok.inj h1
    subst hsnap
    obtain ⟨w0, _, rfl⟩ := List.mem_map.mp hw
    exact enrich_pickup_sound _ w0 hpc
  · intro cache pickupResp m item e rest hsort hop htr
    have hopb : (e.opCode == "125") = true := by simp [beq_iff_eq, hop]
    simp [processItem, hsort, hopb, htr, lookup_insertRoute]
  · intro rmap w rd e rest hl hr hop htr
    have hcb : (e.opCode == "125" && pyTruthy rd.pickupCode) = true := by
      simp [beq_iff_eq, hop, htr]
    constructor
    · simp [enrichWaybill, hl, hr, hcb]
    · simp [enrichWaybill, hl]

/-- Witness for C2 (amended) at concrete inputs. -/
theorem sfx_C2_pickup_code_attachment_witness :
    (∃ e rest,
        (Waybill.mk ⟨"A", "1", "u", "x", "m", "o"⟩
            (some [⟨"2025-01-01", "10:00", "125"⟩]) (some "C1")).routes =
          some (e :: rest) ∧ e.opCode = "125" ∧
        pyTruthy (Waybill.mk ⟨"A", "1", "u", "x", "m", "o"⟩
            (some [⟨"2025-01-01", "10:00", "125"⟩]) (some "C1")).pickupCode = true) ∧
    (processItem (fun _ => .ok (some "C1")) ([], [])
        ⟨"A", [⟨"2025-01-01", "10:00", "125"⟩]⟩).1.lookup "A" =
      some ⟨[⟨"2025-01-01", "10:00", "125"⟩],
        (fetchPickupCode [] "A" ((fun _ : String => FetchResult.ok (some "C1")) "A")).1⟩ :=
  ⟨sfx_C2_pickup_code_attachment.1 none [] [⟨"A", "1", "u", "x", "m", "o"⟩]
      (.ok [⟨"A", [⟨"2025-01-01", "10:00", "125"⟩]⟩]) (fun _ => .ok (some "C1"))
      [⟨⟨"A", "1", "u", "x", "m", "o"⟩, some [⟨"2025-01-01", "10:00", "125"⟩], some "C1"⟩]
      [("A", "C1")] (by decide)
      (Waybill.mk ⟨"A", "1", "u", "x", "m", "o"⟩
        (some [⟨"2025-01-01", "10:00", "125"⟩]) (some "C1")) (by decide) (by decide),
   sfx_C2_pickup_code_attachment.2.1 [] (fun _ => .ok (some "C1")) []
      ⟨"A", [⟨"2025-01-01", "10:00", "125"⟩]⟩ ⟨"2025-01-01", "10:00", "125"⟩ []
      (by decide) rfl (by decide)⟩

/-! ## C5: the pickup-code cache lifecycle -/

/-- C5 (counterexample): a reachable two-cycle run after which the cache holds
an entry for waybill `"A"` although `"A"`'s latest route event in the current
snapshot has opCode `"126"`, not `"125"`, and `"A"` is not delivered.  Cycle 1
caches the code (latest event `"125"`); in cycle 2 the latest event changes to
`"126"` but no purge happens (status is `"1"`, not `"4"`), refuting the claimed
invariant that an entry exists only while the latest event carries `"125"`. -/
theorem sfx_C5_counterexample :
    runCycle
        (runCycle ⟨none, []⟩ (.ok [⟨"A", "1", "u", "x", "m", "o"⟩])
          (.ok [⟨"A", [⟨"2025-01-01", "10:00", "125"⟩]⟩]) (fun _ => .ok (some "C1")))
        (.ok [⟨"A", "1", "u", "x", "m", "o"⟩])
        (.ok [⟨"A", [⟨"2025-01-02", "10:00", "126"⟩]⟩]) (fun _ => .fail) =
      ⟨some [⟨⟨"A", "1", "u", "x", "m", "o"⟩,
          some [⟨"2025-01-02", "10:00", "126"⟩], none⟩], [("A", "C1")]⟩ ∧
    ("126" : String) ≠ "125" :=
  ⟨by decide, by decide⟩

theorem fetchPickupCode_cache_new (cache : Cache) (wbno : String)
    (r : FetchResult (Option String)) (k : String) (c : String)
    (h1 : cache.lookup k = none)
    (h2 : (fetchPickupCode cache wbno r).2.lookup k = some c) : k = wbno := by
  rcases hl : cache.lookup wbno with _ | code
  · rcases r with _ | oc
    · simp [fetchPickupCode, hl, h1] at h2
    · rcases oc with _ | s
      · simp [fetchPickupCode, hl, h1] at h2
      · by_cases hs : (s == "") = true
        · simp [fetchPickupCode, hl, hs, h1] at h2
        · have hs2 : (s == "") = false := Bool.not_eq_true _ ▸ hs
          by_cases hk : k = wbno
          · exact hk
          · rw [show (fetchPickupCode cache wbno (.ok (some s))).2 =
                insertEntry wbno s cache from by simp [fetchPickupCode, hl, hs2],
              lookup_insertEntry, if_neg hk, h1] at h2
            cases h2
  · simp [fetchPickupCode, hl, h1] at h2

theorem processItem_cache_new (p : String → FetchResult (Option String))
    (acc : RouteMap × Cache) (item : RouteQueryItem) (k : String) (c : String)
    (h1 : acc.2.lookup k = none)
    (h2 : (processItem p acc item).2.lookup k = some c) :
    item.waybillNo = k ∧
      ∃ e rest, sortRoutes item.barNewList = e :: rest ∧ e.opCode = "125" := by
  rcases hs : sortRoutes item.barNewList with _ | ⟨e, rest⟩
  · simp [processItem, hs, h1] at h2
  · by_cases hop : (e.opCode == "125") = true
    · have hcache : (processItem p acc item).2 =
          (fetchPickupCode acc.2 item.waybillNo (p item.waybillNo)).2 := by
        simp only [processItem, hs, hop, if_pos rfl]
        by_cases htr : pyTruthy (fetchPickupCode acc.2 item.waybillNo (p item.waybillNo)).1 = true
        · simp [htr]
        · simp [Bool.not_eq_true _ ▸ htr]
      rw [hcache] at h2
      refine ⟨(fetchPickupCode_cache_new acc.2 item.waybillNo (p item.waybillNo) k c h1 h2).symm,
        e, rest, rfl, ?_⟩
      simpa [beq_iff_eq] using hop
    · have hop2 : (e.opCode == "125") = false := Bool.not_eq_true _ ▸ hop
      simp [processItem, hs, hop2, h1] at h2

theorem foldProcess_cache_new (p : String → FetchResult (Option String)) :
    ∀ (items : List RouteQueryItem) (acc : RouteMap × Cache) (k : String) (c : String),
      acc.2.lookup k = none →
      (items.foldl (processItem p) acc).2.lookup k = some c →
      ∃ item ∈ items, item.waybillNo = k ∧
        ∃ e rest, sortRoutes item.barNewList = e :: rest ∧ e.opCode = "125" := by
  intro items
  induction items with
  | nil =>
    intro acc k c h1 h2
    simp only [List.foldl_nil] at h2
    rw [h1] at h2
    cases h2
  | cons hd tl ih =>
    intro acc k c h1 h2
    simp only [List.foldl_cons] at h2
    rcases ho : (processItem p acc hd).2.lookup k with _ | c2
    · obtain ⟨item, hm, hp⟩ := ih (processItem p acc hd) k c ho h2
      exact ⟨item, List.mem_cons_of_mem _ hm, hp⟩
    · obtain ⟨hk, he⟩ := processItem_cache_new p acc hd k c2 h1 ho
      exact ⟨hd, List.mem_cons_self _ _, hk, he⟩

theorem purge_preserves_none (prev : Option Snapshot) (cache : Cache) (k : String)
    (h : cache.lookup k = none) : (purgeDelivered prev cache).lookup k = none := by
  rcases prev with _ | prevList
  · exact h
  · show ((((prevList.filter (fun w => w.waybillStatus == "4")).map
        (fun w => w.waybillno)).foldl (fun c2 wno => eraseKey wno c2) cache).lookup k) = none
    rw [lookup_purgeFold]
    split <;> [rfl; exact h]

theorem fetchRoutes_cache_new (nums : List String)
    (resp : FetchResult (List RouteQueryItem))
    (p : String → FetchResult (Option String)) (cache : Cache) (k : String) (c : String)
    (h1 : cache.lookup k = none)
    (h2 : (fetchRoutes nums resp p cache).2.lookup k = some c) :
    ∃ items, resp = .ok items ∧ ∃ item ∈ items, item.waybillNo = k ∧
      ∃ e rest, sortRoutes item.barNewList = e :: rest ∧ e.opCode = "125" := by
  unfold fetchRoutes at h2
  by_cases hne : nums.isEmpty
  · rw [if_pos hne] at h2
    rw [h1] at h2
    cases h2
  · rw [if_neg hne] at h2
    rcases resp with _ | items
    · rw [h1] at h2
      cases h2
    · exact ⟨items, rfl, foldProcess_cache_new p items ([], cache) k c h1 h2⟩

/-- C5 (amended): a cache entry is *created* during a cycle only for a waybill
whose fetched route list, once sorted, has a latest event with opCode `"125"`
(so every entry was created while awaiting pickup); and an entry of a waybill
recorded as delivered (status `"4"`) in the previous snapshot is purged at the
start of the next cycle, before any fetching.  The code does not remove an
entry merely because the latest event stops being `"125"` while the waybill is
undelivered (see the counterexample). -/
theorem sfx_C5_cache_lifecycle :
    (∀ (st : CoordState) (listResp : FetchResult (List WaybillIn))
        (routeResp : FetchResult (List RouteQueryItem))
        (pickupResp : String → FetchResult (Option String)) (wb : String) (c : String),
        st.cache.lookup wb = none →
        (runCycle st listResp routeResp pickupResp).cache.lookup wb = some c →
        ∃ items, routeResp = .ok items ∧ ∃ item ∈ items, item.waybillNo = wb ∧
          ∃ e rest, sortRoutes item.barNewList = e :: rest ∧ e.opCode = "125") ∧
    (∀ (prevList : Snapshot) (cache : Cache) (w : Waybill),
        w ∈ prevList → w.waybillStatus = "4" →
        (purgeDelivered (some prevList) cache).lookup w.waybillno = none) := by
  constructor
  · intro st listResp routeResp pickupResp wb c h1 h2
    rw [runCycle_cache] at h2
    have hpurged : (purgeDelivered st.data st.cache).lookup wb = none :=
      purge_preserves_none st.data st.cache wb h1
    rcases listResp with _ | dataList
    · rw [show (updateData st.data st.cache .fail routeResp pickupResp).2 =
          purgeDelivered st.data st.cache from rfl, hpurged] at h2
      cases h2
    · exact fetchRoutes_cache_new _ routeResp pickupResp _ wb c hpurged h2
  · intro prevList cache w hw h4
    show ((((prevList.filter (fun w => w.waybillStatus == "4")).map
        (fun w => w.waybillno)).foldl (fun c2 wno => eraseKey wno c2) cache).lookup
        w.waybillno) = none
    rw [lookup_purgeFold, if_pos]
    exact List.mem_map.mpr ⟨w, List.mem_filter.mpr ⟨hw, by simp [h4]⟩, rfl⟩

/-- Witness for C5 (amended) at concrete inputs. -/
theorem sfx_C5_cache_lifecycle_witness :
    (∃ items, (FetchResult.ok [RouteQueryItem.mk "A" [⟨"2025-01-01", "10:00", "125"⟩]]) =
        .ok items ∧ ∃ item ∈ items, item.waybillNo = "A" ∧
        ∃ e rest, sortRoutes item.barNewList = e :: rest ∧ e.opCode = "125") ∧
    (purgeDelivered (some [Waybill.mk ⟨"A", "4", "u", "x", "m", "o"⟩ none none])
        [("A", "C1")]).lookup "A" = none :=
  ⟨sfx_C5_cache_lifecycle.1 ⟨none, []⟩ (.ok [⟨"A", "1", "u", "x", "m", "o"⟩])
      (.ok [⟨"A", [⟨"2025-01-01", "10:00", "125"⟩]⟩]) (fun _ => .ok (some "C1"))
      "A" "C1" (by decide) (by decide),
   sfx_C5_cache_lifecycle.2 _ _ (Waybill.mk ⟨"A", "4", "u", "x", "m", "o"⟩ none none)
      (by decide) rfl⟩

/-! ## Helper lemmas: MD5 digest shape and base-256 digit lists -/

theorem wordBytes_lt (x : Nat) : ∀ y ∈ wordBytes x, y < 256 := by
  intro y hy
  simp only [wordBytes, List.mem_cons, List.not_mem_nil, or_false] at hy
  rcases hy with rfl | rfl | rfl | rfl <;> omega

theorem digestBytes_lt (st : Nat × Nat × Nat × Nat) : ∀ x ∈ digestBytes st, x < 256 := by
  intro x hx
  simp only [digestBytes, List.mem_append] at hx
  rcases hx with ((hx | hx) | hx) | hx <;> exact wordBytes_lt _ _ hx

theorem digestBytes_length (st : Nat × Nat × Nat × Nat) : (digestBytes st).length = 16 := by
  simp [digestBytes, wordBytes]

theorem md5Bytes_length (msg : List Nat) : (md5Bytes msg).length = 16 :=
  digestBytes_length _

theorem md5Bytes_lt (msg : List Nat) : ∀ x ∈ md5Bytes msg, x < 256 :=
  digestBytes_lt _

theorem ofDigits_lt256 : ∀ L : List Nat, (∀ x ∈ L, x < 256) →
    Nat.ofDigits 256 L < 256 ^ L.length := by
  intro L
  induction L with
  | nil => intro _; simp [Nat.ofDigits_nil]
  | cons a as ih =>
    intro hb
    rw [Nat.ofDigits_cons]
    simp only [List.length_cons]
    have ha : a < 256 := hb a (List.mem_cons_self _ _)
    have h2 : Nat.ofDigits 256 as + 1 ≤ 256 ^ as.length :=
      ih (fun x hx => hb x (List.mem_cons_of_mem _ hx))
    have h3 : 256 * (Nat.ofDigits 256 as + 1) ≤ 256 * 256 ^ as.length :=
      Nat.mul_le_mul_left _ h2
    have h4 : (256 : Nat) ^ (as.length + 1) = 256 * 256 ^ as.length := by
      rw [pow_succ]
      ring
    omega

theorem ofDigits_inj256 : ∀ (L1 L2 : List Nat), L1.length = L2.length →
    (∀ x ∈ L1, x < 256) → (∀ x ∈ L2, x < 256) →
    Nat.ofDigits 256 L1 = Nat.ofDigits 256 L2 → L1 = L2 := by
  intro L1
  induction L1 with
  | nil =>
    intro L2 hlen _ _ _
    rcases L2 with _ | ⟨b, bs⟩
    · rfl
    · simp at hlen
  | cons a as ih =>
    intro L2 hlen hb1 hb2 hval
    rcases L2 with _ | ⟨b, bs⟩
    · simp at hlen
    · rw [Nat.ofDigits_cons, Nat.ofDigits_cons] at hval
      have ha : a < 256 := hb1 a (List.mem_cons_self _ _)
      have hbb : b < 256 := hb2 b (List.mem_cons_self _ _)
      have heads : a = b := by omega
      have htails : Nat.ofDigits 256 as = Nat.ofDigits 256 bs := by omega
      have hlen2 : as.length = bs.length := by simpa using hlen
      rw [heads, ih bs hlen2 (fun x hx => hb1 x (List.mem_cons_of_mem _ hx))
        (fun x hx => hb2 x (List.mem_cons_of_mem _ hx)) htails]

/-! ## C8: changing a single signer input -/

/-- C8 (counterexample): the universally quantified claim — any two input
tuples that differ in exactly one input yield different tokens — is false,
because `md5_hex` has only finitely many possible outputs (16 bytes) while the
body input ranges over infinitely many strings: by pigeonhole two distinct
bodies (all other inputs held fixed at `"x"`) produce the same token. -/
theorem sfx_C8_counterexample :
    ¬ (∀ (b1 b2 d c t r l j : String), b1 ≠ b2 →
        generate_syttoken b1 d c t r l j ≠ generate_syttoken b2 d c t r l j) := by
  intro hclaim
  have hbound : ∀ n : Nat,
      Nat.ofDigits 256 (md5Bytes (utf8Encode
        (String.mk (List.replicate n 'a') ++ "&" ++ decode_secret BODY_SECRET))) <
        256 ^ 16 := by
    intro n
    have h1 := ofDigits_lt256 _ (md5Bytes_lt (utf8Encode
      (String.mk (List.replicate n 'a') ++ "&" ++ decode_secret BODY_SECRET)))
    rwa [md5Bytes_length] at h1
  obtain ⟨i, -, j, -, hij, hv⟩ :=
    Finset.exists_ne_map_eq_of_card_lt_of_maps_to
      (s := Finset.range (256 ^ 16 + 1)) (t := Finset.range (256 ^ 16))
      (by simp only [Finset.card_range]; omega)
      (f := fun n => Nat.ofDigits 256 (md5Bytes (utf8Encode
        (String.mk (List.replicate n 'a') ++ "&" ++ decode_secret BODY_SECRET))))
      (fun a _ => Finset.mem_range.mpr (hbound a))
  have hdig := ofDigits_inj256 _ _ (by rw [md5Bytes_length, md5Bytes_length])
    (md5Bytes_lt _) (md5Bytes_lt _) hv
  have hbh : md5_hex (String.mk (List.replicate i 'a') ++ "&" ++ decode_secret BODY_SECRET) =
      md5_hex (String.mk (List.replicate j 'a') ++ "&" ++ decode_secret BODY_SECRET) := by
    unfold md5_hex
    rw [hdig]
  have htok : generate_syttoken (String.mk (List.replicate i 'a')) "x" "x" "x" "x" "x" "x" =
      generate_syttoken (String.mk (List.replicate j 'a')) "x" "x" "x" "x" "x" "x" := by
    simp only [generate_syttoken]
    rw [hbh]
  have hneq : String.mk (List.replicate i 'a') ≠ String.mk (List.replicate j 'a') := by
    intro he
    apply hij
    have h2 : List.replicate i 'a' = List.replicate j 'a' := congrArg String.data he
    have h3 := congrArg List.length h2
    simpa using h3
  exact hclaim _ _ "x" "x" "x" "x" "x" "x" hneq htok

theorem generate_syttoken_eq_md5_outer (b d c t r l j : String) :
    generate_syttoken b d c t r l j = md5_hex (sytOuterPreimage b d c t r l j) := rfl

theorem sytBodyPreimage_inj {b1 b2 : String}
    (h : sytBodyPreimage b1 = sytBodyPreimage b2) : b1 = b2 := by
  have h2 : b1 ++ "&" ++ decode_secret BODY_SECRET =
      b2 ++ "&" ++ decode_secret BODY_SECRET := h
  exact strAppend_cancel_right (strAppend_cancel_right h2)

theorem sytOuterPreimage_inj_midhex {b1 d1 c1 t1 r1 l1 j1 b2 d2 c2 t2 r2 l2 j2 : String}
    (h : sytOuterPreimage b1 d1 c1 t1 r1 l1 j1 = sytOuterPreimage b2 d2 c2 t2 r2 l2 j2) :
    md5_hex (sytRawPreimage b1 d1 c1 t1 r1 l1 j1) =
      md5_hex (sytRawPreimage b2 d2 c2 t2 r2 l2 j2) := by
  have h2 : md5_hex (sytRawPreimage b1 d1 c1 t1 r1 l1 j1) ++ "&" ++
        decode_secret SECOND_SECRET =
      md5_hex (sytRawPreimage b2 d2 c2 t2 r2 l2 j2) ++ "&" ++
        decode_secret SECOND_SECRET := h
  exact strAppend_cancel_right (strAppend_cancel_right h2)

theorem sytRawPreimage_inj_raw {b1 d1 c1 t1 r1 l1 j1 b2 d2 c2 t2 r2 l2 j2 : String}
    (h : sytRawPreimage b1 d1 c1 t1 r1 l1 j1 = sytRawPreimage b2 d2 c2 t2 r2 l2 j2) :
    d1 ++ t1 ++ c1 ++ decode_secret FIRST_SECRET ++ r1 ++ l1 ++
        md5_hex (sytBodyPreimage b1) ++ j1 =
      d2 ++ t2 ++ c2 ++ decode_secret FIRST_SECRET ++ r2 ++ l2 ++
        md5_hex (sytBodyPreimage b2) ++ j2 := by
  have h2 : d1 ++ t1 ++ c1 ++ decode_secret FIRST_SECRET ++ r1 ++ l1 ++
        md5_hex (sytBodyPreimage b1) ++ j1 ++ "&" ++ decode_secret FIRST_SECRET =
      d2 ++ t2 ++ c2 ++ decode_secret FIRST_SECRET ++ r2 ++ l2 ++
        md5_hex (sytBodyPreimage b2) ++ j2 ++ "&" ++ decode_secret FIRST_SECRET := h
  exact strAppend_cancel_right (strAppend_cancel_right h2)

/-- C8 (amended): for each of the seven signer inputs, two calls that differ
only in that input feed *different preimages* to the MD5 stage the input
enters (the body-hash preimage for the body, the first-round preimage for the
six header inputs); and when the two calls nevertheless return equal tokens, MD5
itself collides on one of the concrete pairs of distinct preimages arising in
those two computations — at the body stage, the first stage, or the second
stage.  So the token changes whenever a single input changes, except across an
actual MD5 collision of the derived preimages (the counterexample shows this
escape hatch cannot be dropped). -/
theorem sfx_C8_single_input_sensitivity :
    (∀ b1 b2 d c t r l j : String, b1 ≠ b2 →
      sytBodyPreimage b1 ≠ sytBodyPreimage b2 ∧
      (generate_syttoken b1 d c t r l j = generate_syttoken b2 d c t r l j →
        (md5_hex (sytBodyPreimage b1) = md5_hex (sytBodyPreimage b2) ∧
          sytBodyPreimage b1 ≠ sytBodyPreimage b2) ∨
        (md5_hex (sytRawPreimage b1 d c t r l j) = md5_hex (sytRawPreimage b2 d c t r l j) ∧
          sytRawPreimage b1 d c t r l j ≠ sytRawPreimage b2 d c t r l j) ∨
        (md5_hex (sytOuterPreimage b1 d c t r l j) =
            md5_hex (sytOuterPreimage b2 d c t r l j) ∧
          sytOuterPreimage b1 d c t r l j ≠ sytOuterPreimage b2 d c t r l j))) ∧
    (∀ b d1 d2 c t r l j : String, d1 ≠ d2 →
      sytRawPreimage b d1 c t r l j ≠ sytRawPreimage b d2 c t r l j ∧
      (generate_syttoken b d1 c t r l j = generate_syttoken b d2 c t r l j →
        (md5_hex (sytRawPreimage b d1 c t r l j) = md5_hex (sytRawPreimage b d2 c t r l j) ∧
          sytRawPreimage b d1 c t r l j ≠ sytRawPreimage b d2 c t r l j) ∨
        (md5_hex (sytOuterPreimage b d1 c t r l j) =
            md5_hex (sytOuterPreimage b d2 c t r l j) ∧
          sytOuterPreimage b d1 c t r l j ≠ sytOuterPreimage b d2 c t r l j))) ∧
    (∀ b d c1 c2 t r l j : String, c1 ≠ c2 →
      sytRawPreimage b d c1 t r l j ≠ sytRawPreimage b d c2 t r l j ∧
      (generate_syttoken b d c1 t r l j = generate_syttoken b d c2 t r l j →
        (md5_hex (sytRawPreimage b d c1 t r l j) = md5_hex (sytRawPreimage b d c2 t r l j) ∧
          sytRawPreimage b d c1 t r l j ≠ sytRawPreimage b d c2 t r l j) ∨
        (md5_hex (sytOuterPreimage b d c1 t r l j) =
            md5_hex (sytOuterPreimage b d c2 t r l j) ∧
          sytOuterPreimage b d c1 t r l j ≠ sytOuterPreimage b d c2 t r l j))) ∧
    (∀ b d c t1 t2 r l j : String, t1 ≠ t2 →
      sytRawPreimage b d c t1 r l j ≠ sytRawPreimage b d c t2 r l j ∧
      (generate_syttoken b d c t1 r l j = generate_syttoken b d c t2 r l j →
        (md5_hex (sytRawPreimage b d c t1 r l j) = md5_hex (sytRawPreimage b d c t2 r l j) ∧
          sytRawPreimage b d c t1 r l j ≠ sytRawPreimage b d c t2 r l j) ∨
        (md5_hex (sytOuterPreimage b d c t1 r l j) =
            md5_hex (sytOuterPreimage b d c t2 r l j) ∧
          sytOuterPreimage b d c t1 r l j ≠ sytOuterPreimage b d c t2 r l j))) ∧
    (∀ b d c t r1 r2 l j : String, r1 ≠ r2 →
      sytRawPreimage b d c t r1 l j ≠ sytRawPreimage b d c t r2 l j ∧
      (generate_syttoken b d c t r1 l j = generate_syttoken b d c t r2 l j →
        (md5_hex (sytRawPreimage b d c t r1 l j) = md5_hex (sytRawPreimage b d c t r2 l j) ∧
          sytRawPreimage b d c t r1 l j ≠ sytRawPreimage b d c t r2 l j) ∨
        (md5_hex (sytOuterPreimage b d c t r1 l j) =
            md5_hex (sytOuterPreimage b d c t r2 l j) ∧
          sytOuterPreimage b d c t r1 l j ≠ sytOuterPreimage b d c t r2 l j))) ∧
    (∀ b d c t r l1 l2 j : String, l1 ≠ l2 →
      sytRawPreimage b d c t r l1 j ≠ sytRawPreimage b d c t r l2 j ∧
      (generate_syttoken b d c t r l1 j = generate_syttoken b d c t r l2 j →
        (md5_hex (sytRawPreimage b d c t r l1 j) = md5_hex (sytRawPreimage b d c t r l2 j) ∧
          sytRawPreimage b d c t r l1 j ≠ sytRawPreimage b d c t r l2 j) ∨
        (md5_hex (sytOuterPreimage b d c t r l1 j) =
            md5_hex (sytOuterPreimage b d c t r l2 j) ∧
          sytOuterPreimage b d c t r l1 j ≠ sytOuterPreimage b d c t r l2 j))) ∧
    (∀ b d c t r l j1 j2 : String, j1 ≠ j2 →
      sytRawPreimage b d c t r l j1 ≠ sytRawPreimage b d c t r l j2 ∧
      (generate_syttoken b d c t r l j1 = generate_syttoken b d c t r l j2 →
        (md5_hex (sytRawPreimage b d c t r l j1) = md5_hex (sytRawPreimage b d c t r l j2) ∧
          sytRawPreimage b d c t r l j1 ≠ sytRawPreimage b d c t r l j2) ∨
        (md5_hex (sytOuterPreimage b d c t r l j1) =
            md5_hex (sytOuterPreimage b d c t r l j2) ∧
          sytOuterPreimage b d c t r l j1 ≠ sytOuterPreimage b d c t r l j2))) := by
  refine ⟨?_, ?_, ?_, ?_, ?_, ?_, ?_⟩
  · intro b1 b2 d c t r l j hne
    have hpre : sytBodyPreimage b1 ≠ sytBodyPreimage b2 :=
      fun h => hne (sytBodyPreimage_inj h)
    refine ⟨hpre, fun htok => ?_⟩
    by_cases hOut : sytOuterPreimage b1 d c t r l j = sytOuterPreimage b2 d c t r l j
    · have hmid := sytOuterPreimage_inj_midhex hOut
      by_cases hRaw : sytRawPreimage b1 d c t r l j = sytRawPreimage b2 d c t r l j
      · have hraweq := sytRawPreimage_inj_raw hRaw
        have hbh : md5_hex (sytBodyPreimage b1) = md5_hex (sytBodyPreimage b2) :=
          strAppend_cancel_left (strAppend_cancel_right hraweq)
        exact Or.inl ⟨hbh, hpre⟩
      · exact Or.inr (Or.inl ⟨hmid, hRaw⟩)
    · have htok2 : md5_hex (sytOuterPreimage b1 d c t r l j) =
          md5_hex (sytOuterPreimage b2 d c t r l j) := htok
      exact Or.inr (Or.inr ⟨htok2, hOut⟩)
  · intro b d1 d2 c t r l j hne
    have hpre : sytRawPreimage b d1 c t r l j ≠ sytRawPreimage b d2 c t r l j := by
      intro h
      apply hne
      have hraweq := sytRawPreimage_inj_raw h
      exact strAppend_cancel_right (strAppend_cancel_right (strAppend_cancel_right
        (strAppend_cancel_right (strAppend_cancel_right (strAppend_cancel_right
          (strAppend_cancel_right hraweq))))))
    refine ⟨hpre, fun htok => ?_⟩
    by_cases hOut : sytOuterPreimage b d1 c t r l j = sytOuterPreimage b d2 c t r l j
    · exact Or.inl ⟨sytOuterPreimage_inj_midhex hOut, hpre⟩
    · have htok2 : md5_hex (sytOuterPreimage b d1 c t r l j) =
          md5_hex (sytOuterPreimage b d2 c t r l j) := htok
      exact Or.inr ⟨htok2, hOut⟩
  · intro b d c1 c2 t r l j hne
    have hpre : sytRawPreimage b d c1 t r l j ≠ sytRawPreimage b d c2 t r l j := by
      intro h
      apply hne
      have hraweq := sytRawPreimage_inj_raw h
      exact strAppend_cancel_left (strAppend_cancel_right (strAppend_cancel_right
        (strAppend_cancel_right (strAppend_cancel_right (strAppend_cancel_right hraweq)))))
    refine ⟨hpre, fun htok => ?_⟩
    by_cases hOut : sytOuterPreimage b d c1 t r l j = sytOuterPreimage b d c2 t r l j
    · exact Or.inl ⟨sytOuterPreimage_inj_midhex hOut, hpre⟩
    · have htok2 : md5_hex (sytOuterPreimage b d c1 t r l j) =
          md5_hex (sytOuterPreimage b d c2 t r l j) := htok
      exact Or.inr ⟨htok2, hOut⟩
  · intro b d c t1 t2 r l j hne
    have hpre : sytRawPreimage b d c t1 r l j ≠ sytRawPreimage b d c t2 r l j := by
      intro h
      apply hne
      have hraweq := sytRawPreimage_inj_raw h
      exact strAppend_cancel_left (strAppend_cancel_right (strAppend_cancel_right
        (strAppend_cancel_right (strAppend_cancel_right (strAppend_cancel_right
          (strAppend_cancel_right hraweq))))))
    refine ⟨hpre, fun htok => ?_⟩
    by_cases hOut : sytOuterPreimage b d c t1 r l j = sytOuterPreimage b d c t2 r l j
    · exact Or.inl ⟨sytOuterPreimage_inj_midhex hOut, hpre⟩
    · have htok2 : md5_hex (sytOuterPreimage b d c t1 r l j) =
          md5_hex (sytOuterPreimage b d c t2 r l j) := htok
      exact Or.inr ⟨htok2, hOut⟩
  · intro b d c t r1 r2 l j hne
    have hpre : sytRawPreimage b d c t r1 l j ≠ sytRawPreimage b d c t r2 l j := by
      intro h
      apply hne
      have hraweq := sytRawPreimage_inj_raw h
      exact strAppend_cancel_left (strAppend_cancel_right (strAppend_cancel_right
        (strAppend_cancel_right hraweq)))
    refine ⟨hpre, fun htok => ?_⟩
    by_cases hOut : sytOuterPreimage b d c t r1 l j = sytOuterPreimage b d c t r2 l j
    · exact Or.inl ⟨sytOuterPreimage_inj_midhex hOut, hpre⟩
    · have htok2 : md5_hex (sytOuterPreimage b d c t r1 l j) =
          md5_hex (sytOuterPreimage b d c t r2 l j) := htok
      exact Or.inr ⟨htok2, hOut⟩
  · intro b d c t r l1 l2 j hne
    have hpre : sytRawPreimage b d c t r l1 j ≠ sytRawPreimage b d c t r l2 j := by
      intro h
      apply hne
      have hraweq := sytRawPreimage_inj_raw h
      exact strAppend_cancel_left (strAppend_cancel_right (strAppend_cancel_right hraweq))
    refine ⟨hpre, fun htok => ?_⟩
    by_cases hOut : sytOuterPreimage b d c t r l1 j = sytOuterPreimage b d c t r l2 j
    · exact Or.inl ⟨sytOuterPreimage_inj_midhex hOut, hpre⟩
    · have htok2 : md5_hex (sytOuterPreimage b d c t r l1 j) =
          md5_hex (sytOuterPreimage b d c t r l2 j) := htok
      exact Or.inr ⟨htok2, hOut⟩
  · intro b d c t r l j1 j2 hne
    have hpre : sytRawPreimage b d c t r l j1 ≠ sytRawPreimage b d c t r l j2 := by
      intro h
      apply hne
      have hraweq := sytRawPreimage_inj_raw h
      exact strAppend_cancel_left hraweq
    refine ⟨hpre, fun htok => ?_⟩
    by_cases hOut : sytOuterPreimage b d c t r l j1 = sytOuterPreimage b d c t r l j2
    · exact Or.inl ⟨sytOuterPreimage_inj_midhex hOut, hpre⟩
    · have htok2 : md5_hex (sytOuterPreimage b d c t r l j1) =
          md5_hex (sytOuterPreimage b d c t r l j2) := htok
      exact Or.inr ⟨htok2, hOut⟩

/-- Witness for C8 (amended) at concrete inputs (the body conjunct and the
device-id conjunct, hypotheses discharged by `decide`). -/
theorem sfx_C8_single_input_sensitivity_witness :
    (sytBodyPreimage "a" ≠ sytBodyPreimage "b" ∧
      (generate_syttoken "a" "x" "x" "x" "x" "x" "x" =
          generate_syttoken "b" "x" "x" "x" "x" "x" "x" →
        (md5_hex (sytBodyPreimage "a") = md5_hex (sytBodyPreimage "b") ∧
          sytBodyPreimage "a" ≠ sytBodyPreimage "b") ∨
        (md5_hex (sytRawPreimage "a" "x" "x" "x" "x" "x" "x") =
            md5_hex (sytRawPreimage "b" "x" "x" "x" "x" "x" "x") ∧
          sytRawPreimage "a" "x" "x" "x" "x" "x" "x" ≠
            sytRawPreimage "b" "x" "x" "x" "x" "x" "x") ∨
        (md5_hex (sytOuterPreimage "a" "x" "x" "x" "x" "x" "x") =
            md5_hex (sytOuterPreimage "b" "x" "x" "x" "x" "x" "x") ∧
          sytOuterPreimage "a" "x" "x" "x" "x" "x" "x" ≠
            sytOuterPreimage "b" "x" "x" "x" "x" "x" "x"))) ∧
    (sytRawPreimage "x" "a" "x" "x" "x" "x" "x" ≠
        sytRawPreimage "x" "b" "x" "x" "x" "x" "x" ∧
      (generate_syttoken "x" "a" "x" "x" "x" "x" "x" =
          generate_syttoken "x" "b" "x" "x" "x" "x" "x" →
        (md5_hex (sytRawPreimage "x" "a" "x" "x" "x" "x" "x") =
            md5_hex (sytRawPreimage "x" "b" "x" "x" "x" "x" "x") ∧
          sytRawPreimage "x" "a" "x" "x" "x" "x" "x" ≠
            sytRawPreimage "x" "b" "x" "x" "x" "x" "x") ∨
        (md5_hex (sytOuterPreimage "x" "a" "x" "x" "x" "x" "x") =
            md5_hex (sytOuterPreimage "x" "b" "x" "x" "x" "x" "x") ∧
          sytOuterPreimage "x" "a" "x" "x" "x" "x" "x" ≠
            sytOuterPreimage "x" "b" "x" "x" "x" "x" "x"))) :=
  ⟨sfx_C8_single_input_sensitivity.1 "a" "b" "x" "x" "x" "x" "x" "x" (by decide),
   sfx_C8_single_input_sensitivity.2.1 "x" "a" "b" "x" "x" "x" "x" "x" (by decide)⟩
